import Mathlib

/-!
Shallow embedding of the load/unload and device bring-up path of the i915
DRM driver (src/shared-core/i915_init.c): the AGP capacity prober, the
hardware status page manager, the mode-setting bring-up sequence and the
driver load/unload facade.  External collaborators (PCI access, coherent
allocation, the stolen-memory range allocator, ring buffer, BIOS tables,
mode setting, interrupts, workqueues) are modelled by oracle environments
recording whether each call succeeds, and by events recording the calls
the code makes, in program order.
-/

namespace I915

/-- Wrap-around limit of the C type unsigned long on a 64-bit target. -/
def U64LIMIT : Nat := 18446744073709551616

/-- C unsigned subtraction a - b on 64-bit unsigned long, for b < U64LIMIT:
wraps around on underflow. -/
def sub64 (a b : Nat) : Nat := (a + (U64LIMIT - b)) % U64LIMIT

/-- Device identity as discriminated by the switch in i915_probe_agp
(src/shared-core/i915_init.c lines 48-62): the four legacy ids named
there, and the default (9xx) branch for every other id. -/
inductive DevId
  | i82830CGC
  | i82845G
  | i82855GM
  | i82865
  | other
deriving DecidableEq

/-- Oracle inputs consumed by i915_probe_agp: whether the host bridge
device is found, the 16-bit GMCH control word read from it, and the
length of PCI resource 2 (a 64-bit quantity). -/
structure ProbeEnv where
  bridge_present : Bool
  gmch_ctrl : Nat
  resource2_len : Nat
deriving DecidableEq

/-- Modelled from the spec: the INTEL_GMCH / INTEL_855_GMCH register
constants live in i915_drv.h, which is not part of src/.  The spec
describes the stolen-memory amount as a lookup keyed off a 3-bit field
of the control register (1M, 4M, 8M, 16M, 32M, 48M, 64M, plus a
disabled encoding), and the aperture choice for the legacy ids as keyed
off a memory-mask bit.  We place the 3-bit field at bits 4-6 (encoding
0 = disabled, 1..7 = the seven sizes in increasing order, matching the
kernel layout) and the memory-mask bit at bit 0. -/
def gmsField (tmp : Nat) : Nat := tmp / 16 % 8

/-- i915_probe_agp (src/shared-core/i915_init.c lines 28-101).
Arguments ap0 pre0 are the values of the caller variables passed by
pointer before the call (the caller leaves them uninitialized); the
result is (return code, final aperture_size, final preallocated_size),
i.e. the values the caller variables hold after the call, including on
failure paths where the source returns early without writing them. -/
def i915_probe_agp (id : DevId) (env : ProbeEnv) (ap0 pre0 : Nat) :
    Int × Nat × Nat :=
  if env.bridge_present = false then
    (-1, ap0, pre0)
  else
    let tmp := env.gmch_ctrl % 65536
    let ap :=
      match id with
      | DevId.other => env.resource2_len % U64LIMIT
      | _ => if tmp % 2 = 1 then 1048576 * 64 else 1048576 * 128
    let overhead := ap / 1024 + 4096
    let g := gmsField tmp
    if g = 1 then (0, ap, sub64 1048576 overhead)
    else if g = 2 then (0, ap, sub64 (1048576 * 4) overhead)
    else if g = 3 then (0, ap, sub64 (1048576 * 8) overhead)
    else if g = 4 then (0, ap, sub64 (1048576 * 16) overhead)
    else if g = 5 then (0, ap, sub64 (1048576 * 32) overhead)
    else if g = 6 then (0, ap, sub64 (1048576 * 48) overhead)
    else if g = 7 then (0, ap, sub64 (1048576 * 64) overhead)
    else if g = 0 then (-1, ap, 1048576)
    else (-1, ap, 1048576)

/-- Memory-mapped registers written by this file: the hardware status
page address register HWS_PGA and the ring control register PRB0_CTL. -/
inductive Reg
  | HWS_PGA
  | PRB0_CTL
deriving DecidableEq

/-- The register file, i.e. the last value written to each register. -/
structure Regs where
  hws_pga : Nat
  prb0_ctl : Nat
deriving DecidableEq

/-- Calls the embedded code makes, recorded in program order.  A write
event is an I915_WRITE; the remaining events are calls into external
collaborators (allocation, release, cleanup, setup). -/
inductive Event
  | write (r : Reg) (v : Nat)
  | allocPci
  | searchFree
  | getBlock
  | ioremap
  | memsetPage
  | freePci
  | ioremapFree
  | putBlock
  | memrangeInit (base size : Nat)
  | gemDoInit (lo hi : Nat)
  | ringInit
  | createWq
  | initBios
  | modesetInit
  | initialConfig
  | kstrdup
  | irqInstall
  | kfreeDevname
  | modesetCleanup
  | destroyWorkqueue
  | cleanupRing
  | irqUninstall
  | memrangeTakedown
  | gemLastclose
  | addmap
  | rmmap
  | freeDevPriv
deriving DecidableEq

/-- The fields of struct drm_i915_private touched by this file.  C null
pointers are modelled as none; the struct is zero-filled at load
(memset in i915_driver_load), giving zeroPriv below. -/
structure DevPriv where
  status_page_dmah : Option Nat
  dma_status_page : Nat
  hws_vaddr : Option Nat
  hws : Option Nat
  hws_agpoffset : Nat
  hws_map_offset : Nat
  hws_map_handle : Option Nat
  wq : Option Unit
deriving DecidableEq

/-- The zero-initialized private state produced by the memset in
i915_driver_load. -/
def zeroPriv : DevPriv :=
  { status_page_dmah := none
    dma_status_page := 0
    hws_vaddr := none
    hws := none
    hws_agpoffset := 0
    hws_map_offset := 0
    hws_map_handle := none
    wq := none }

/-- Oracle inputs consumed by i915_init_hwstatus: the result of
drm_pci_alloc (some busaddr on success), of drm_memrange_search_free
(some block start on success), of drm_memrange_get_block (success
flag), and of drm_core_ioremap (some handle on success). -/
structure HwsEnv where
  pci_alloc : Option Nat
  free_space : Option Nat
  get_block_ok : Bool
  ioremap_handle : Option Nat
deriving DecidableEq

/-- i915_init_hwstatus (src/shared-core/i915_init.c lines 103-171).
Returns (return code, private state, registers, events).  Note the
source label out_free carries only the comment free hws and no code:
on the G33 ioremap-failure path the pinned block is left allocated,
and the model reproduces that. -/
def i915_init_hwstatus (g33 : Bool) (agp_base : Nat) (env : HwsEnv)
    (p : DevPriv) (r : Regs) : Int × DevPriv × Regs × List Event :=
  if g33 = false then
    match env.pci_alloc with
    | none => (-12, p, r, [Event.allocPci])
    | some busaddr =>
      let p1 := { p with status_page_dmah := some busaddr
                         hws_vaddr := some busaddr
                         dma_status_page := busaddr }
      (0, p1, { r with hws_pga := busaddr },
        [Event.allocPci, Event.write Reg.HWS_PGA busaddr, Event.memsetPage])
  else
    match env.free_space with
    | none => (-12, p, r, [Event.searchFree])
    | some start =>
      if env.get_block_ok = false then
        (-22, { p with hws := none }, r, [Event.searchFree, Event.getBlock])
      else
        let p1 := { p with hws := some start
                           hws_agpoffset := start
                           hws_map_offset := agp_base + start
                           hws_map_handle := env.ioremap_handle }
        match env.ioremap_handle with
        | none =>
          (-12, { p1 with hws_agpoffset := 0 }, r,
            [Event.searchFree, Event.getBlock, Event.ioremap])
        | some handle =>
          let p2 := { p1 with hws_vaddr := some handle }
          (0, p2, { r with hws_pga := start },
            [Event.searchFree, Event.getBlock, Event.ioremap,
             Event.write Reg.HWS_PGA start, Event.memsetPage])

/-- The calls made by i915_cleanup_hwstatus: conditional releases (the
fields are null-checked in the source) followed by the unconditional
sentinel write to HWS_PGA. -/
def cleanupHwsEvents (g33 : Bool) (p : DevPriv) : List Event :=
  (if g33 = false then
    (if p.status_page_dmah.isSome then [Event.freePci] else [])
  else
    (if p.hws_map_handle.isSome then [Event.ioremapFree] else []) ++
    (if p.hws.isSome then [Event.putBlock] else [])) ++
  [Event.write Reg.HWS_PGA 536866816]

/-- i915_cleanup_hwstatus (src/shared-core/i915_init.c lines 173-187).
Releases whichever status-page resource is non-null and then writes the
disabled sentinel 0x1ffff000 = 536866816 to HWS_PGA.  The source does
not clear the private-state fields, and neither does the model. -/
def i915_cleanup_hwstatus (g33 : Bool) (p : DevPriv) (r : Regs) :
    DevPriv × Regs × List Event :=
  (p, { r with hws_pga := 536866816 }, cleanupHwsEvents g33 p)

/-- Oracle inputs for the bring-up state machine: the probe environment
plus results of the external collaborators it calls (ring buffer init
return code, status-page oracles, workqueue creation, BIOS table
discovery return code, devname duplication, interrupt install return
code). -/
structure ModeEnv where
  probe : ProbeEnv
  ring_ret : Int
  hws : HwsEnv
  wq_ok : Bool
  bios_ret : Int
  kstrdup_ok : Bool
  irq_ret : Int
deriving DecidableEq

/-- i915_load_modeset_init (src/shared-core/i915_init.c lines 189-256).
Arguments g1 g2 are the values of the uninitialized local variables
agp_size and prealloc_size before the call to i915_probe_agp, whose
return value the source discards (line 195).  Returns (return code,
private state, registers, events). -/
def i915_load_modeset_init (id : DevId) (g33 : Bool) (agp_base : Nat)
    (env : ModeEnv) (p : DevPriv) (r : Regs) (g1 g2 : Nat) :
    Int × DevPriv × Regs × List Event :=
  let probed := i915_probe_agp id env.probe g1 g2
  let agp_size := probed.2.1
  let prealloc_size := probed.2.2
  let e0 := [Event.memrangeInit 0 prealloc_size,
             Event.gemDoInit prealloc_size agp_size, Event.ringInit]
  if env.ring_ret ≠ 0 then
    (env.ring_ret, p, r, e0)
  else
    let hws := i915_init_hwstatus g33 agp_base env.hws p r
    let p1 := hws.2.1
    let r1 := hws.2.2.1
    let e1 := e0 ++ hws.2.2.2
    if hws.1 ≠ 0 then
      (hws.1, p1, r1, e1 ++ [Event.cleanupRing])
    else if env.wq_ok = false then
      let c := i915_cleanup_hwstatus g33 p1 r1
      (-22, c.1, c.2.1, e1 ++ [Event.createWq] ++ c.2.2 ++ [Event.cleanupRing])
    else
      let p2 := { p1 with wq := some () }
      let e2 := e1 ++ [Event.createWq, Event.initBios]
      if env.bios_ret ≠ 0 then
        let c := i915_cleanup_hwstatus g33 p2 r1
        (-19, c.1, c.2.1,
          e2 ++ [Event.destroyWorkqueue] ++ c.2.2 ++ [Event.cleanupRing])
      else
        let e3 := e2 ++ [Event.modesetInit, Event.initialConfig, Event.kstrdup]
        if env.kstrdup_ok = false then
          let c := i915_cleanup_hwstatus g33 p2 r1
          (-12, c.1, c.2.1,
            e3 ++ [Event.modesetCleanup, Event.destroyWorkqueue] ++ c.2.2 ++
              [Event.cleanupRing])
        else
          let e4 := e3 ++ [Event.irqInstall]
          if env.irq_ret ≠ 0 then
            let c := i915_cleanup_hwstatus g33 p2 r1
            (env.irq_ret, c.1, c.2.1,
              e4 ++ [Event.kfreeDevname, Event.modesetCleanup,
                     Event.destroyWorkqueue] ++ c.2.2 ++ [Event.cleanupRing])
          else
            (0, p2, r1, e4)

/-- The DRM device as seen by load and unload: chip generation flag,
whether the DRIVER_MODESET feature is set, the private-state pointer
(none models the C null pointer) and the register file. -/
structure DrmDevice where
  is_g33 : Bool
  modeset : Bool
  dev_private : Option DevPriv
  regs : Regs
deriving DecidableEq

/-- A modelled crash: dereferencing the null dev_private pointer. -/
inductive Fault
  | nullDeref
deriving DecidableEq

/-- i915_driver_unload (src/shared-core/i915_init.c lines 363-418).
If dev_private is null the source dereferences it (dev_priv-wq at line
372 in mode-setting mode, the dev_priv field reads inside
i915_cleanup_hwstatus at lines 178-184 in every mode), which the model
reports as a nullDeref fault.  On the non-null path it mirrors the
source order: PRB0_CTL write, mode-setting teardown trio, status-page
cleanup, ring and allocator teardown, register-map removal, free of the
private block, and finally dev_private = null. -/
def i915_driver_unload (d : DrmDevice) : Except Fault (DrmDevice × List Event) :=
  match d.dev_private with
  | none => Except.error Fault.nullDeref
  | some p =>
    let r1 := { d.regs with prb0_ctl := 0 }
    let e1 := [Event.write Reg.PRB0_CTL 0]
    let e2 := if d.modeset then
        [Event.irqUninstall, Event.modesetCleanup, Event.destroyWorkqueue]
      else []
    let c := i915_cleanup_hwstatus d.is_g33 p r1
    let e4 := if d.modeset then
        [Event.cleanupRing, Event.memrangeTakedown, Event.gemLastclose]
      else []
    Except.ok ({ d with dev_private := none, regs := c.2.1 },
      e1 ++ e2 ++ c.2.2 ++ e4 ++ [Event.rmmap, Event.freeDevPriv])

/-- The event trace of an unload, empty when the call faults. -/
def unloadTrace (d : DrmDevice) : List Event :=
  match i915_driver_unload d with
  | Except.ok x => x.2
  | Except.error _ => []

/-- Oracle inputs for i915_driver_load: whether drm_alloc succeeds,
whether a register window is found (9xx path or resource 1 present),
the drm_addmap return code, and the bring-up environment. -/
structure LoadEnv where
  alloc_ok : Bool
  mmio_found : Bool
  addmap_ret : Int
  mode : ModeEnv
deriving DecidableEq

/-- i915_driver_load (src/shared-core/i915_init.c lines 269-361).
Returns (return code, dev_private pointer value at return, registers,
events).  On failure paths the source frees dev_priv but does not clear
dev-dev_private (it dangles); the model keeps the some value and records
the free as an event. -/
def i915_driver_load (id : DevId) (g33 modeset : Bool) (agp_base : Nat)
    (env : LoadEnv) (r : Regs) (g1 g2 : Nat) :
    Int × Option DevPriv × Regs × List Event :=
  if env.alloc_ok = false then
    (-12, none, r, [])
  else if env.mmio_found = false then
    (-19, some zeroPriv, r, [Event.freeDevPriv])
  else if env.addmap_ret ≠ 0 then
    (env.addmap_ret, some zeroPriv, r, [Event.addmap, Event.freeDevPriv])
  else if modeset then
    let m := i915_load_modeset_init id g33 agp_base env.mode zeroPriv r g1 g2
    if m.1 < 0 then
      (m.1, some m.2.1, m.2.2.1,
        [Event.addmap] ++ m.2.2.2 ++ [Event.rmmap, Event.freeDevPriv])
    else
      (0, some m.2.1, m.2.2.1, [Event.addmap] ++ m.2.2.2)
  else
    (0, some zeroPriv, r, [Event.addmap])

/-- Recognizer for an unload outcome that crashed on a null
dev_private dereference. -/
def isNullDerefFault : Except Fault (DrmDevice × List Event) → Bool
  | Except.error Fault.nullDeref => true
  | Except.ok _ => false

/-- Recognizer for writes to the status page address register. -/
def isHwsWrite : Event → Bool
  | Event.write Reg.HWS_PGA _ => true
  | _ => false

/-- The writes to HWS_PGA occurring in an event trace. -/
def hwsWrites (l : List Event) : List Event := l.filter isHwsWrite

/-- A register file with both registers at zero. -/
def regs0 : Regs := { hws_pga := 0, prb0_ctl := 0 }

/-- Bring-up environment in which the host bridge is absent (so the
capacity probe fails) while every other collaborator succeeds. -/
def envBridgeAbsent : ModeEnv :=
  { probe := { bridge_present := false, gmch_ctrl := 0, resource2_len := 0 }
    ring_ret := 0
    hws := { pci_alloc := some 4096, free_space := none, get_block_ok := true,
             ioremap_handle := none }
    wq_ok := true
    bios_ret := 0
    kstrdup_ok := true
    irq_ret := 0 }

/-- Status-page environment for a G33 device in which the stolen-memory
search and the block reservation succeed but the ioremap fails. -/
def envG33MapFail : HwsEnv :=
  { pci_alloc := none, free_space := some 0, get_block_ok := true,
    ioremap_handle := none }

/-- A private state as left by a successful non-G33 bring-up: coherent
status page allocated, workqueue created. -/
def privLoaded : DevPriv :=
  { zeroPriv with status_page_dmah := some 4096
                  hws_vaddr := some 4096
                  dma_status_page := 4096
                  wq := some () }

/-- A loaded non-G33 device in full mode-setting mode. -/
def devLoaded : DrmDevice :=
  { is_g33 := false, modeset := true, dev_private := some privLoaded
    regs := { hws_pga := 4096, prb0_ctl := 1 } }

/-- A second loaded non-G33 device, used for the double-unload scenario. -/
def devTwice : DrmDevice :=
  { is_g33 := false, modeset := true
    dev_private := some { privLoaded with dma_status_page := 8192
                                          status_page_dmah := some 8192
                                          hws_vaddr := some 8192 }
    regs := regs0 }

/-- The device state left behind by the first unload of devTwice. -/
def devTwiceAfter : DrmDevice :=
  match i915_driver_unload devTwice with
  | Except.ok x => x.1
  | Except.error _ => devTwice

/-- Load environment whose bring-up fails at the ring-buffer stage with
return code -5, every facade-level step succeeding. -/
def envRingFail : LoadEnv :=
  { alloc_ok := true, mmio_found := true, addmap_ret := 0
    mode :=
      { probe := { bridge_present := true, gmch_ctrl := 49, resource2_len := 0 }
        ring_ret := -5
        hws := { pci_alloc := some 1, free_space := none, get_block_ok := true,
                 ioremap_handle := none }
        wq_ok := true
        bios_ret := 0
        kstrdup_ok := true
        irq_ret := 0 } }

/-- Claim C9: with the aperture computed as 64 MiB (legacy 855GM
identity, memory-mask bit set) and the control register stolen field
encoding 8M, i915_probe_agp succeeds and returns preallocated_size
equal to 8*1024*1024 - ((64*1024*1024/1024) + 4096) = 8318976 bytes. -/
theorem probe_agp_64M_8M_value :
    i915_probe_agp DevId.i82855GM
      { bridge_present := true, gmch_ctrl := 49, resource2_len := 0 } 0 0 =
    (0, 67108864, 8318976) := by decide

/-- Claim C5: i915_cleanup_hwstatus always writes the disabled sentinel
0x1ffff000 to HWS_PGA, for every strategy and every prior state
(including one where no allocation ever succeeded), and running it a
second time on its own output yields the same final register state. -/
theorem cleanup_hwstatus_sentinel_idempotent (g33 : Bool) (p : DevPriv)
    (r : Regs) :
    (i915_cleanup_hwstatus g33 p r).2.1.hws_pga = 536866816 ∧
    Event.write Reg.HWS_PGA 536866816 ∈ (i915_cleanup_hwstatus g33 p r).2.2 ∧
    (i915_cleanup_hwstatus g33 (i915_cleanup_hwstatus g33 p r).1
        (i915_cleanup_hwstatus g33 p r).2.1).2.1 =
      (i915_cleanup_hwstatus g33 p r).2.1 := by
  refine ⟨rfl, ?_, rfl⟩
  simp [i915_cleanup_hwstatus, cleanupHwsEvents]

/-- Claim C10: whenever i915_init_hwstatus fails, its event trace
contains no write to the status page register HWS_PGA. -/
theorem init_hwstatus_no_write_on_failure (g33 : Bool) (base : Nat)
    (env : HwsEnv) (p : DevPriv) (r : Regs)
    (hfail : (i915_init_hwstatus g33 base env p r).1 ≠ 0) :
    hwsWrites (i915_init_hwstatus g33 base env p r).2.2.2 = [] := by
  rcases g33 with _ | _ <;>
    rcases hpa : env.pci_alloc with _ | busaddr <;>
    rcases hfs : env.free_space with _ | start <;>
    rcases hgb : env.get_block_ok with _ | _ <;>
    rcases hio : env.ioremap_handle with _ | h <;>
    simp_all [i915_init_hwstatus, hwsWrites, isHwsWrite]

/-- Witness for claim C10 at a concrete failing input: a non-G33 device
whose coherent page allocation fails. -/
theorem init_hwstatus_no_write_on_failure_witness :
    (i915_init_hwstatus false 0
        { pci_alloc := none, free_space := none, get_block_ok := false,
          ioremap_handle := none } zeroPriv regs0).1 ≠ 0 ∧
    hwsWrites (i915_init_hwstatus false 0
        { pci_alloc := none, free_space := none, get_block_ok := false,
          ioremap_handle := none } zeroPriv regs0).2.2.2 = [] :=
  ⟨by decide, init_hwstatus_no_write_on_failure false 0
    { pci_alloc := none, free_space := none, get_block_ok := false,
      ioremap_handle := none } zeroPriv regs0 (by decide)⟩

/-- Claim C1 (code bug): the bring-up sequence does not gate on the
capacity probe.  With the host bridge absent, i915_probe_agp fails with
-1 and never writes its output parameters, yet i915_load_modeset_init
(which discards the probe return value at source line 195) still
initializes the stolen-memory range allocator and the graphics memory
manager, passing them the two uninitialized caller values (here 111 and
222). -/
theorem modeset_init_ignores_probe_failure :
    (i915_probe_agp DevId.other envBridgeAbsent.probe 111 222).1 = -1 ∧
    (i915_load_modeset_init DevId.other false 0 envBridgeAbsent zeroPriv regs0
        111 222).2.2.2.take 2 =
      [Event.memrangeInit 0 222, Event.gemDoInit 222 111] := by decide

/-- Claim C2 (code bug): stage gating is broken at stage 1.  With the
probe failing (bridge absent) and all later collaborators succeeding,
stages 2 and onward are still entered (the ring buffer is initialized)
and the state machine even reports overall success. -/
theorem modeset_init_enters_stages_after_failed_probe :
    (i915_probe_agp DevId.other envBridgeAbsent.probe 123 456).1 = -1 ∧
    (i915_load_modeset_init DevId.other false 0 envBridgeAbsent zeroPriv regs0
        123 456).1 = 0 ∧
    Event.ringInit ∈
      (i915_load_modeset_init DevId.other false 0 envBridgeAbsent zeroPriv
        regs0 123 456).2.2.2 := by decide

/-- Claim C3 (code bug): on the G33 path, when the stolen block has been
found and pinned but the ioremap fails, i915_init_hwstatus returns
-ENOMEM while the pinned block stays allocated: the trace records the
reservation but no release, and the private state still holds the
block.  The source jumps to the label out_free, which contains only the
comment free hws and no release code. -/
theorem init_hwstatus_leaks_pinned_block_on_map_failure :
    (i915_init_hwstatus true 4096 envG33MapFail zeroPriv regs0).1 = -12 ∧
    (i915_init_hwstatus true 4096 envG33MapFail zeroPriv regs0).2.1.hws =
      some 0 ∧
    Event.getBlock ∈
      (i915_init_hwstatus true 4096 envG33MapFail zeroPriv regs0).2.2.2 ∧
    Event.putBlock ∉
      (i915_init_hwstatus true 4096 envG33MapFail zeroPriv regs0).2.2.2 := by
  decide

/-- Claim C4 counterexample: for a 9xx-generation identity whose PCI
resource 2 has length 0 and a control register encoding stolen memory
8M, i915_probe_agp succeeds (returns 0) with preallocated_size 8384512
strictly greater than aperture_size 0. -/
theorem probe_agp_prealloc_can_exceed_aperture :
    (i915_probe_agp DevId.other
      { bridge_present := true, gmch_ctrl := 48, resource2_len := 0 } 0 0).1 =
      0 ∧
    ¬ (i915_probe_agp DevId.other
        { bridge_present := true, gmch_ctrl := 48, resource2_len := 0 }
        0 0).2.2 ≤
      (i915_probe_agp DevId.other
        { bridge_present := true, gmch_ctrl := 48, resource2_len := 0 }
        0 0).2.1 := by decide

/-- Claim C4 as amended: for every device identity and every value of
the 16-bit control register, if i915_probe_agp succeeds then
preallocated_size is at most aperture_size, provided that for the
default (9xx) identities the length of PCI resource 2 lies between
64 MiB and 1020 MiB; for the four legacy identities no condition is
needed. -/
theorem probe_agp_prealloc_le_aperture (id : DevId) (env : ProbeEnv)
    (ap0 pre0 : Nat)
    (hlen : id = DevId.other →
      67108864 ≤ env.resource2_len % U64LIMIT ∧
      env.resource2_len % U64LIMIT ≤ 1069547520)
    (hok : (i915_probe_agp id env ap0 pre0).1 = 0) :
    (i915_probe_agp id env ap0 pre0).2.2 ≤
      (i915_probe_agp id env ap0 pre0).2.1 := by
  by_cases hb : env.bridge_present = false
  · simp [i915_probe_agp, hb] at hok
  · simp only [i915_probe_agp, if_neg hb] at hok ⊢
    have hg : gmsField (env.gmch_ctrl % 65536) < 8 :=
      Nat.mod_lt _ (by norm_num)
    generalize hgg : gmsField (env.gmch_ctrl % 65536) = g at hok hg ⊢
    rcases id with _ | _ | _ | _ | _ <;>
      [skip; skip; skip; skip;
        (obtain ⟨h1, h2⟩ := hlen rfl)] <;>
      interval_cases g <;>
      simp_all <;>
      (first | split_ifs | skip) <;>
      (simp only [sub64, U64LIMIT] at *; omega)

/-- Witness for claim C4 as amended, at the legacy 855GM identity with
the 8M stolen encoding. -/
theorem probe_agp_prealloc_le_aperture_witness :
    (i915_probe_agp DevId.i82855GM
      { bridge_present := true, gmch_ctrl := 49, resource2_len := 0 }
      0 0).1 = 0 ∧
    (i915_probe_agp DevId.i82855GM
        { bridge_present := true, gmch_ctrl := 49, resource2_len := 0 }
        0 0).2.2 ≤
      (i915_probe_agp DevId.i82855GM
        { bridge_present := true, gmch_ctrl := 49, resource2_len := 0 }
        0 0).2.1 :=
  ⟨by decide, probe_agp_prealloc_le_aperture DevId.i82855GM
    { bridge_present := true, gmch_ctrl := 49, resource2_len := 0 } 0 0
    (by decide) (by decide)⟩

/-- Claim C6 counterexample: on a concrete loaded device, the first
action of i915_driver_unload is the write of 0 to the ring control
register PRB0_CTL, not the disabled-sentinel write to the status
register HWS_PGA; the sentinel write to HWS_PGA only occurs later in
the trace. -/
theorem unload_first_action_is_ring_write :
    (unloadTrace devLoaded).head? = some (Event.write Reg.PRB0_CTL 0) ∧
    (unloadTrace devLoaded).head? ≠
      some (Event.write Reg.HWS_PGA 536866816) ∧
    Event.write Reg.HWS_PGA 536866816 ∈ (unloadTrace devLoaded).tail := by
  decide

/-- Claim C6 as amended: the first action of unload is the unconditional
write of 0 to PRB0_CTL; the status register receives its disabled
sentinel only later, during status-page teardown, after interrupt
uninstall, mode-setting cleanup and workqueue destruction. -/
theorem unload_ring_write_first_sentinel_later (d : DrmDevice) (p : DevPriv)
    (hp : d.dev_private = some p) (hm : d.modeset = true) :
    ∃ pre post,
      unloadTrace d =
        Event.write Reg.PRB0_CTL 0 ::
          (pre ++ Event.write Reg.HWS_PGA 536866816 :: post) ∧
      Event.irqUninstall ∈ pre ∧ Event.modesetCleanup ∈ pre ∧
      Event.destroyWorkqueue ∈ pre := by
  refine ⟨[Event.irqUninstall, Event.modesetCleanup, Event.destroyWorkqueue] ++
    (if d.is_g33 = false then
      (if p.status_page_dmah.isSome then [Event.freePci] else [])
    else
      (if p.hws_map_handle.isSome then [Event.ioremapFree] else []) ++
      (if p.hws.isSome then [Event.putBlock] else [])),
    [Event.cleanupRing, Event.memrangeTakedown, Event.gemLastclose,
     Event.rmmap, Event.freeDevPriv], ?_, by simp, by simp, by simp⟩
  simp [unloadTrace, i915_driver_unload, hp, hm, i915_cleanup_hwstatus,
    cleanupHwsEvents]

/-- Witness for claim C6 as amended, at the concrete loaded device. -/
theorem unload_ring_write_first_sentinel_later_witness :
    ∃ pre post,
      unloadTrace devLoaded =
        Event.write Reg.PRB0_CTL 0 ::
          (pre ++ Event.write Reg.HWS_PGA 536866816 :: post) ∧
      Event.irqUninstall ∈ pre ∧ Event.modesetCleanup ∈ pre ∧
      Event.destroyWorkqueue ∈ pre :=
  unload_ring_write_first_sentinel_later devLoaded privLoaded rfl rfl

/-- Claim C7 counterexample: the first unload of a loaded device
succeeds and leaves dev_private null; calling unload again on that
state dereferences the null private-state pointer (the source reads
dev_priv fields in i915_cleanup_hwstatus and, in mode-setting mode,
dev_priv at the destroy_workqueue call, without any null check). -/
theorem unload_twice_null_dereference :
    (i915_driver_unload devTwice).toOption.isSome = true ∧
    devTwiceAfter.dev_private = none ∧
    isNullDerefFault (i915_driver_unload devTwiceAfter) = true := by
  decide

/-- Claim C7 as amended: a single unload on a device whose private
pointer is non-null never faults, whatever the field values (so it is
safe against null or unset fields), nulls the private pointer, and
releases each resource at most once; it is a second unload, finding the
pointer already nulled, that dereferences null. -/
theorem unload_once_safe_and_no_double_free (d : DrmDevice) (p : DevPriv)
    (hp : d.dev_private = some p) :
    ∃ d2 tr, i915_driver_unload d = Except.ok (d2, tr) ∧
      d2.dev_private = none ∧
      tr.count Event.freePci ≤ 1 ∧ tr.count Event.ioremapFree ≤ 1 ∧
      tr.count Event.putBlock ≤ 1 ∧ tr.count Event.freeDevPriv = 1 := by
  rcases d with ⟨g33, ms, dp, r⟩
  simp only at hp
  subst hp
  refine ⟨_, _, rfl, rfl, ?_, ?_, ?_, ?_⟩ <;>
    simp [i915_cleanup_hwstatus, cleanupHwsEvents, List.count_append] <;>
    rcases g33 with _ | _ <;>
    rcases ms with _ | _ <;>
    rcases p.status_page_dmah with _ | a <;>
    rcases p.hws_map_handle with _ | b <;>
    rcases p.hws with _ | c <;>
    simp [List.count_cons, List.count_nil]

/-- Witness for claim C7 as amended, at the concrete loaded device used
for the double-unload scenario. -/
theorem unload_once_safe_and_no_double_free_witness :
    ∃ d2 tr, i915_driver_unload devTwice = Except.ok (d2, tr) ∧
      d2.dev_private = none ∧
      tr.count Event.freePci ≤ 1 ∧ tr.count Event.ioremapFree ≤ 1 ∧
      tr.count Event.putBlock ≤ 1 ∧ tr.count Event.freeDevPriv = 1 :=
  unload_once_safe_and_no_double_free devTwice
    { privLoaded with dma_status_page := 8192
                      status_page_dmah := some 8192
                      hws_vaddr := some 8192 } rfl

/-- Claim C8: in full mode-setting mode, when the facade-level steps
succeed and the bring-up state machine fails (returns a negative
code), i915_driver_load removes the register mapping, frees the
private state block (rmmap then free, in that order, at the end of the
trace) and returns the state-machine error code unchanged. -/
theorem load_rolls_back_and_propagates_modeset_error (id : DevId)
    (g33 : Bool) (agp_base : Nat) (env : LoadEnv) (r : Regs) (g1 g2 : Nat)
    (halloc : env.alloc_ok = true) (hmmio : env.mmio_found = true)
    (haddmap : env.addmap_ret = 0)
    (hfail :
      (i915_load_modeset_init id g33 agp_base env.mode zeroPriv r g1 g2).1 <
        0) :
    (i915_driver_load id g33 true agp_base env r g1 g2).1 =
      (i915_load_modeset_init id g33 agp_base env.mode zeroPriv r g1 g2).1 ∧
    ∃ ev, (i915_driver_load id g33 true agp_base env r g1 g2).2.2.2 =
      [Event.addmap] ++ ev ++ [Event.rmmap, Event.freeDevPriv] := by
  simp only [i915_driver_load, halloc, haddmap, hmmio]
  simp [hfail]

/-- Witness for claim C8, with the ring-buffer stage failing with -5. -/
theorem load_rolls_back_and_propagates_modeset_error_witness :
    (i915_load_modeset_init DevId.i82855GM false 0 envRingFail.mode zeroPriv
        regs0 7 9).1 < 0 ∧
    ((i915_driver_load DevId.i82855GM false true 0 envRingFail regs0 7 9).1 =
      (i915_load_modeset_init DevId.i82855GM false 0 envRingFail.mode zeroPriv
        regs0 7 9).1 ∧
    ∃ ev, (i915_driver_load DevId.i82855GM false true 0 envRingFail regs0
        7 9).2.2.2 =
      [Event.addmap] ++ ev ++ [Event.rmmap, Event.freeDevPriv]) :=
  ⟨by decide, load_rolls_back_and_propagates_modeset_error DevId.i82855GM
    false 0 envRingFail regs0 7 9 rfl rfl rfl (by decide)⟩

end I915
